import Mathlib

/-!
Verification development for the rs-co2mon sensor library
(src/lib.rs, src/error.rs, src/main.rs).

Machine integers are embedded as `Nat` with explicit wraparound:
a Rust `u8` value is a `Nat` (< 256 on every value actually produced),
`x << n` on `u8` is `(x <<< n) % 256`, `x >> n` is `x >>> n`,
`|` is `Nat.lor` (`|||`), `^` is `Nat.xor` (`^^^`), and
`wrapping_sub`/`wrapping_add` carry an explicit `% 256`.
`f64` arithmetic of the event payloads is modelled exactly over `ℚ`
(the two decode formulas are exact decimal computations, and no claim
depends on `f64` rounding).  Durations are modelled in milliseconds.
-/

namespace Co2mon

/-- An 8-byte report / frame, `[u8; 8]` in the source.  Fields hold the
bytes at indices 0..7. -/
structure Frame where
  b0 : Nat
  b1 : Nat
  b2 : Nat
  b3 : Nat
  b4 : Nat
  b5 : Nat
  b6 : Nat
  b7 : Nat
deriving DecidableEq, Repr

/-- All eight bytes are in `u8` range. -/
def Frame.Bounded (f : Frame) : Prop :=
  f.b0 < 256 ∧ f.b1 < 256 ∧ f.b2 < 256 ∧ f.b3 < 256 ∧
  f.b4 < 256 ∧ f.b5 < 256 ∧ f.b6 < 256 ∧ f.b7 < 256

instance (f : Frame) : Decidable f.Bounded := by
  unfold Frame.Bounded; infer_instance

/-- Rust `x << n` on `u8`: shift left with the result truncated to a byte. -/
def shlU8 (x n : Nat) : Nat := (x <<< n) % 256

/-- Rust `x.wrapping_sub(y)` on `u8` (for operands below 256). -/
def wsubU8 (x y : Nat) : Nat := (x + 256 - y) % 256

/-- `data.swap(0, 2)` -/
def Frame.swap02 (d : Frame) : Frame := { d with b0 := d.b2, b2 := d.b0 }

/-- `data.swap(1, 4)` -/
def Frame.swap14 (d : Frame) : Frame := { d with b1 := d.b4, b4 := d.b1 }

/-- `data.swap(3, 7)` -/
def Frame.swap37 (d : Frame) : Frame := { d with b3 := d.b7, b7 := d.b3 }

/-- `data.swap(5, 6)` -/
def Frame.swap56 (d : Frame) : Frame := { d with b5 := d.b6, b6 := d.b5 }

/-- Step 1 of `decrypt` (lib.rs 57-60): the four in-place swaps, in source
order.  The pairs are disjoint, so the order does not matter here. -/
def swapStep (d : Frame) : Frame := d.swap02.swap14.swap37.swap56

/-- Step 2 of `decrypt` (lib.rs 62-64): XOR each byte with the key byte at
the same index (`*r ^= k`). -/
def xorStep (d k : Frame) : Frame :=
  { b0 := d.b0 ^^^ k.b0, b1 := d.b1 ^^^ k.b1, b2 := d.b2 ^^^ k.b2,
    b3 := d.b3 ^^^ k.b3, b4 := d.b4 ^^^ k.b4, b5 := d.b5 ^^^ k.b5,
    b6 := d.b6 ^^^ k.b6, b7 := d.b7 ^^^ k.b7 }

/-- Step 3 of `decrypt` (lib.rs 66-74), translated statement by statement.
The source updates `data` in place from index 7 down to 1 and finally
index 0; each assignment is mirrored by a record update.  Because the
writes run from the top index down, every right-hand side reads bytes the
step has not yet overwritten (index 7's pre-step value is saved in `tmp`
before it is overwritten). -/
def rotStep (d : Frame) : Frame :=
  let tmp := shlU8 d.b7 5
  let d := { d with b7 := shlU8 d.b6 5 ||| d.b7 >>> 3 }
  let d := { d with b6 := shlU8 d.b5 5 ||| d.b6 >>> 3 }
  let d := { d with b5 := shlU8 d.b4 5 ||| d.b5 >>> 3 }
  let d := { d with b4 := shlU8 d.b3 5 ||| d.b4 >>> 3 }
  let d := { d with b3 := shlU8 d.b2 5 ||| d.b3 >>> 3 }
  let d := { d with b2 := shlU8 d.b1 5 ||| d.b2 >>> 3 }
  let d := { d with b1 := shlU8 d.b0 5 ||| d.b1 >>> 3 }
  let d := { d with b0 := tmp ||| d.b0 >>> 3 }
  d

/-- The ASCII bytes of the literal `b"Htemp99e"` (lib.rs 76). -/
def magicWord : Frame :=
  { b0 := 0x48, b1 := 0x74, b2 := 0x65, b3 := 0x6d,
    b4 := 0x70, b5 := 0x39, b6 := 0x39, b7 := 0x65 }

/-- The per-byte mask of step 4: `m << 4 | m >> 4`, a nibble swap. -/
def nibbleSwap (m : Nat) : Nat := shlU8 m 4 ||| m >>> 4

/-- Step 4 of `decrypt` (lib.rs 76-78): subtract the nibble-swapped mask
byte with wraparound (`r.wrapping_sub(m << 4 | m >> 4)`). -/
def maskStep (d : Frame) : Frame :=
  { b0 := wsubU8 d.b0 (nibbleSwap magicWord.b0),
    b1 := wsubU8 d.b1 (nibbleSwap magicWord.b1),
    b2 := wsubU8 d.b2 (nibbleSwap magicWord.b2),
    b3 := wsubU8 d.b3 (nibbleSwap magicWord.b3),
    b4 := wsubU8 d.b4 (nibbleSwap magicWord.b4),
    b5 := wsubU8 d.b5 (nibbleSwap magicWord.b5),
    b6 := wsubU8 d.b6 (nibbleSwap magicWord.b6),
    b7 := wsubU8 d.b7 (nibbleSwap magicWord.b7) }

/-- `decrypt(data, key)` (lib.rs 55-81): swaps, XOR key mix, in-place
bit recombination, additive mask removal. -/
def decrypt (data key : Frame) : Frame :=
  maskStep (rotStep (xorStep (swapStep data) key))

/-! ### Claim-side reference pipeline (C1)

`decryptSpecStep3` is written from the specification's words, not from the
source: `result[i] = (frame[i-1] << 5) | (frame[i] >> 3)` for `i` from 7
down to 1 and `result[0] = (frame[7] << 5) | (frame[0] >> 3)`, where every
`frame[j]` on the right denotes the value after steps 1-2 and before any
byte of step 3 is written (a single snapshot `f`). -/

/-- Spec-side step 3: all eight output bytes computed from one snapshot. -/
def decryptSpecStep3 (f : Frame) : Frame :=
  { b0 := shlU8 f.b7 5 ||| f.b0 >>> 3,
    b1 := shlU8 f.b0 5 ||| f.b1 >>> 3,
    b2 := shlU8 f.b1 5 ||| f.b2 >>> 3,
    b3 := shlU8 f.b2 5 ||| f.b3 >>> 3,
    b4 := shlU8 f.b3 5 ||| f.b4 >>> 3,
    b5 := shlU8 f.b4 5 ||| f.b5 >>> 3,
    b6 := shlU8 f.b5 5 ||| f.b6 >>> 3,
    b7 := shlU8 f.b6 5 ||| f.b7 >>> 3 }

/-- Spec-side reference pipeline of claim C1: swap positions (0,2), (1,4),
(3,7), (5,6); XOR with the key; snapshot recombination; subtract the
nibble-swapped `"Htemp99e"` mask bytes modulo 256. -/
def decryptSpec (data key : Frame) : Frame :=
  maskStep (decryptSpecStep3 (xorStep (swapStep data) key))

/-! ### Sensor session (lib.rs 35-256, error.rs) -/

/-- `decode_humidity` (lib.rs 15-17): `w as f64 / 100.0`, modelled exactly
over `ℚ`. -/
def decode_humidity (w : Nat) : ℚ := w / 100

/-- `decode_temperature` (lib.rs 19-21): `w as f64 / 16.0 - 273.15`,
modelled exactly over `ℚ`. -/
def decode_temperature (w : Nat) : ℚ := w / 16 - 273.15

/-- `AirQulityEvent` (lib.rs 43-53; the constructor names, including the
spellings `AirQulityEvent` and `UninitializeData`, are the source's). -/
inductive AirQulityEvent where
  | AmbientTemperature (temp : ℚ)
  | RelativeConcentration (value : Nat)
  | Humidity (value : ℚ)
  | UnexpectedData (data : Frame)
  | WrongPacket
  | ChecksumError
  | UninitializeData
  | UnknownCode (data : Frame)
deriving DecidableEq, Repr

/-- `Error` (error.rs 6-29).  `Hid` carries a boxed `HidError` in the
source; the transport error payload is irrelevant to the claims and is
dropped here. -/
inductive Error where
  | Hid
  | InvalidMessage
  | Checksum
  | Timeout
  | InvalidTimeout
deriving DecidableEq, Repr

/-- `CODE_HUMD` (lib.rs 11). -/
def CODE_HUMD : Nat := 0x41

/-- `CODE_TAMB` (lib.rs 12). -/
def CODE_TAMB : Nat := 0x42

/-- `CODE_CNTR` (lib.rs 13). -/
def CODE_CNTR : Nat := 0x50

/-- `Sensor` (lib.rs 35-41).  The `dev: HidDevice` handle is the external
transport and has no data content in the model; reads from it enter
`Sensor.read` as an explicit `ReadOutcome` argument.  `timeout` is an
`Option` duration in milliseconds. -/
structure Sensor where
  debug : Bool
  decode : Bool
  key : Frame
  timeout : Option Nat
deriving DecidableEq, Repr

/-- `OpenOptions` (lib.rs 213-219): builder state. -/
structure OpenOptions where
  key : Frame
  debug : Bool
  timeout : Option Nat
deriving DecidableEq, Repr

/-- The all-zero frame, `[0; 8]`. -/
def zeroFrame : Frame :=
  { b0 := 0, b1 := 0, b2 := 0, b3 := 0, b4 := 0, b5 := 0, b6 := 0, b7 := 0 }

/-- `OpenOptions::new` (lib.rs 228-235): key all-zero, debug off, timeout
`Some(Duration::from_secs(5))` = 5000 ms. -/
def OpenOptions.new : OpenOptions :=
  { key := zeroFrame, debug := false, timeout := some 5000 }

/-- `OpenOptions::debug` (lib.rs 237-240); named `withDebug` here because
`debug` is taken by the field projection. -/
def OpenOptions.withDebug (o : OpenOptions) (yesno : Bool) : OpenOptions :=
  { o with debug := yesno }

/-- `OpenOptions::with_key` (lib.rs 242-245). -/
def OpenOptions.with_key (o : OpenOptions) (key : Frame) : OpenOptions :=
  { o with key := key }

/-- `OpenOptions::timeout` (lib.rs 247-250); named `withTimeout` here
because `timeout` is taken by the field projection.  It stores the value
unconditionally: the setter performs no validation and cannot fail. -/
def OpenOptions.withTimeout (o : OpenOptions) (timeout : Option Nat) :
    OpenOptions :=
  { o with timeout := timeout }

/-- `Sensor::open` (lib.rs 86-125).  The transport is abstracted by the
`hid` argument: `none` models `HidApi::new()?` / `hidapi.open(VID, PID)?`
failing (the `?` returns `Error::Hid` via the `From<HidError>` impl),
`some release` models success with the device reporting firmware
`release_number = release`.  On success the source computes
`decode = if release_number > 0x0100 { false } else { true }`, sends the
feature report `[0, key..]` (result ignored), and builds the sensor with
`timeout: None` — the literal in the source; `options.timeout` is not
read. -/
def Sensor.openDevice (options : OpenOptions) (hid : Option Nat) :
    Except Error Sensor :=
  match hid with
  | none => .error .Hid
  | some release_number =>
      let decode := if release_number > 0x0100 then false else true
      .ok { debug := options.debug, decode := decode,
            key := options.key, timeout := none }

/-- `u128 as i32` (lib.rs 133): truncate to 32 bits, two's complement. -/
def millisToI32 (n : Nat) : Int :=
  if n % 2 ^ 32 < 2 ^ 31 then (n % 2 ^ 32 : Int)
  else (n % 2 ^ 32 : Int) - 2 ^ 32

/-- The timeout argument `read` passes to `dev.read_timeout` (lib.rs
131-134): `self.timeout.unwrap_or(Duration::from_secs(5)).as_millis() as
i32`. -/
def Sensor.readTimeoutMs (s : Sensor) : Int :=
  millisToI32 (s.timeout.getD 5000)

/-- Outcome of `self.dev.read_timeout(&mut data, timeout)` (lib.rs 135):
`ioError` is the `Err(_)` case, `ok size data` the `Ok(size)` case with
the buffer left holding `data`. -/
inductive ReadOutcome where
  | ioError
  | ok (size : Nat) (data : Frame)
deriving DecidableEq, Repr

/-- Validation and classification of a decoded frame, lib.rs 153-208:
marker check on byte 4, wrapping checksum of bytes 0-2 against byte 3,
then dispatch on the measurement code byte 0. -/
def classify (data : Frame) : AirQulityEvent :=
  if data.b4 ≠ 0x0d then .UnexpectedData data
  else
    let checksum := (((0 + data.b0) % 256 + data.b1) % 256 + data.b2) % 256
    if checksum ≠ data.b3 then .ChecksumError
    else
      let w := data.b1 <<< 8 + data.b2
      if data.b0 = CODE_HUMD then .Humidity (decode_humidity w)
      else if data.b0 = CODE_TAMB then
        .AmbientTemperature (decode_temperature w)
      else if data.b0 = CODE_CNTR then
        if w > 3000 then .UninitializeData
        else .RelativeConcentration w
      else .UnknownCode data

/-- `Sensor::read` (lib.rs 127-209).  The transport outcome is the
explicit argument `r`.  An `Err` from `read_timeout` returns `None`; a
successful read of `size ≠ 8` returns `Some(WrongPacket)`; on exactly 8
bytes the frame is decrypted when `self.decode` is set and then validated
and classified (`classify`). -/
def Sensor.read (s : Sensor) (r : ReadOutcome) : Option AirQulityEvent :=
  match r with
  | .ioError => none
  | .ok size data =>
      if size = 8 then
        let data := if s.decode then decrypt data s.key else data
        some (classify data)
      else
        some .WrongPacket

/-! ### Claim-side 64-bit rotation (C9)

Written from the specification's words: the 8 bytes are read as one 64-bit
integer in big-endian byte order, that integer is rotated right by 3 bits,
and the result is decomposed back into 8 big-endian bytes. -/

/-- The 8 bytes as a 64-bit integer, big-endian. -/
def toBE64 (f : Frame) : Nat :=
  f.b0 * 2 ^ 56 + f.b1 * 2 ^ 48 + f.b2 * 2 ^ 40 + f.b3 * 2 ^ 32 +
  f.b4 * 2 ^ 24 + f.b5 * 2 ^ 16 + f.b6 * 2 ^ 8 + f.b7

/-- Right rotation by 3 bits of a 64-bit value: the low 3 bits move to bit
positions 61-63. -/
def rotr3_64 (n : Nat) : Nat := n / 8 + n % 8 * 2 ^ 61

/-- Decompose a 64-bit integer back into 8 big-endian bytes. -/
def ofBE64 (n : Nat) : Frame :=
  { b0 := n / 2 ^ 56 % 256, b1 := n / 2 ^ 48 % 256,
    b2 := n / 2 ^ 40 % 256, b3 := n / 2 ^ 32 % 256,
    b4 := n / 2 ^ 24 % 256, b5 := n / 2 ^ 16 % 256,
    b6 := n / 2 ^ 8 % 256, b7 := n % 256 }

/-! ### Theorems -/

/-- A byte shifted left by 5 and truncated keeps its low 3 bits, moved to
bit positions 5-7. -/
theorem shlU8_five (x : Nat) : shlU8 x 5 = x % 8 * 32 := by
  simp only [shlU8, Nat.shiftLeft_eq]
  omega

/-- OR of disjoint bit ranges is addition: a 3-bit value in positions 5-7
OR'd with a 5-bit value in positions 0-4. -/
theorem lor_mul32 : ∀ a, a < 8 → ∀ b, b < 32 → a * 32 ||| b = a * 32 + b := by
  decide

/-- The wrapping checksum chain of lib.rs 164-167 computes the plain
mod-256 sum of the first three bytes. -/
theorem checksum_chain (a b c : Nat) :
    (((0 + a) % 256 + b) % 256 + c) % 256 = (a + b + c) % 256 := by
  omega

/-- C1: `decrypt` equals the four-step reference pipeline in which step 3
reads every byte from the snapshot taken after steps 1-2 (the source's
in-place writes from index 7 down to 1 never read an already-written
byte). -/
theorem decrypt_eq_reference_pipeline (data key : Frame) :
    decrypt data key = decryptSpec data key := rfl

/-- C2: a validated frame with measurement code 0x50 is classified by the
big-endian 16-bit value of bytes 1-2: above 3000 it yields
`UninitializeData`, otherwise `RelativeConcentration` of that value (so
3000 itself is reported, 3001 is not). -/
theorem classify_co2_boundary (d : Frame) (hm : d.b4 = 0x0d)
    (hck : (d.b0 + d.b1 + d.b2) % 256 = d.b3) (hc : d.b0 = CODE_CNTR) :
    classify d =
      if d.b1 <<< 8 + d.b2 > 3000 then .UninitializeData
      else .RelativeConcentration (d.b1 <<< 8 + d.b2) := by
  rw [hc] at hck
  simp only [CODE_CNTR] at hck hc
  simp [classify, hm, hc, checksum_chain, hck, CODE_HUMD, CODE_TAMB,
    CODE_CNTR]

/-- Witness for C2 at the boundary: code 0x50, value 3000 = 11·256 + 184,
checksum (0x50 + 11 + 184) % 256 = 19, marker 0x0d. -/
theorem classify_co2_boundary_witness :
    classify ⟨0x50, 11, 184, 19, 0x0d, 0, 0, 0⟩ =
      if 11 <<< 8 + 184 > 3000 then .UninitializeData
      else .RelativeConcentration (11 <<< 8 + 184) :=
  classify_co2_boundary ⟨0x50, 11, 184, 19, 0x0d, 0, 0, 0⟩ (by decide)
    (by decide) (by decide)

/-- C3: a frame whose marker byte (index 4) differs from 0x0d is
classified as `UnexpectedData` carrying the frame, whatever its checksum;
in particular it is never `ChecksumError`. -/
theorem classify_marker_precedence (d : Frame) (hm : d.b4 ≠ 0x0d) :
    classify d = .UnexpectedData d ∧ classify d ≠ .ChecksumError := by
  simp [classify, hm]

/-- Witness for C3: the all-zero frame has a valid checksum
((0+0+0) % 256 = 0 = byte 3) but marker byte 0 ≠ 0x0d. -/
theorem classify_marker_precedence_witness :
    classify zeroFrame = .UnexpectedData zeroFrame ∧
      classify zeroFrame ≠ .ChecksumError :=
  classify_marker_precedence zeroFrame (by decide)

/-- C4: classification yields `ChecksumError` exactly when the marker byte
is 0x0d and the mod-256 sum of bytes 0-2 differs from byte 3;
consequently a frame passing both checks yields neither `ChecksumError`
nor any `UnexpectedData`. -/
theorem classify_checksum_iff (d : Frame) :
    (classify d = .ChecksumError ↔
      d.b4 = 0x0d ∧ (d.b0 + d.b1 + d.b2) % 256 ≠ d.b3) ∧
    (d.b4 = 0x0d → (d.b0 + d.b1 + d.b2) % 256 = d.b3 →
      classify d ≠ .ChecksumError ∧ ∀ g, classify d ≠ .UnexpectedData g) := by
  unfold classify
  simp only [checksum_chain]
  split_ifs with h1 h2 h3 h4 h5 <;> simp_all

/-- Witness for C4's valid-frame conjunct at the all-zero frame with the
marker byte set to 0x0d. -/
theorem classify_checksum_iff_witness :
    classify ⟨0, 0, 0, 0, 0x0d, 0, 0, 0⟩ ≠ .ChecksumError ∧
      ∀ g, classify ⟨0, 0, 0, 0, 0x0d, 0, 0, 0⟩ ≠ .UnexpectedData g :=
  (classify_checksum_iff ⟨0, 0, 0, 0, 0x0d, 0, 0, 0⟩).2 (by decide) (by decide)

/-- C5: the transport-read stage of `read`: an I/O failure is the one and
only source of `none`; a successful read of any size other than 8 yields
`WrongPacket` with no decryption or validation; with exactly 8 bytes the
frame is (conditionally) decrypted and classified. -/
theorem read_transport_stage (s : Sensor) (r : ReadOutcome) :
    (s.read r = none ↔ r = .ioError) ∧
    (∀ n d, r = .ok n d → n ≠ 8 → s.read r = some .WrongPacket) ∧
    (∀ d, r = .ok 8 d →
      s.read r = some (classify (if s.decode then decrypt d s.key else d))) := by
  cases r with
  | ioError => simp [Sensor.read]
  | ok n d =>
      by_cases h : n = 8 <;> simp [Sensor.read, h]

/-- Witness for C5: a 7-byte read yields `WrongPacket`. -/
theorem read_transport_stage_witness :
    Sensor.read ⟨false, true, zeroFrame, none⟩ (.ok 7 zeroFrame) =
      some .WrongPacket :=
  (read_transport_stage ⟨false, true, zeroFrame, none⟩ (.ok 7 zeroFrame)).2.1
    7 zeroFrame rfl (by decide)

/-- C6: a successfully opened session has its decode flag equal to
(firmware release number ≤ 0x0100), and every read of an 8-byte report
runs the decryptor with the session key exactly when that flag is set,
using the raw bytes as-is otherwise.  The flag and key are immutable
fields of the `Sensor`; `read` only consumes them. -/
theorem open_decode_flag (opts : OpenOptions) (release : Nat) (s : Sensor)
    (h : Sensor.openDevice opts (some release) = .ok s) :
    (s.decode = true ↔ release ≤ 0x0100) ∧
    (∀ d, s.decode = true →
      s.read (.ok 8 d) = some (classify (decrypt d s.key))) ∧
    (∀ d, s.decode = false → s.read (.ok 8 d) = some (classify d)) := by
  simp only [Sensor.openDevice, Except.ok.injEq] at h
  subst h
  by_cases hr : release > 0x0100
  · simp only [if_pos hr]
    refine ⟨?_, fun d hd => ?_, fun d _ => ?_⟩
    · constructor
      · intro hft
        exact absurd hft (by simp)
      · intro hle
        exact absurd hle (by omega)
    · exact absurd hd (by simp)
    · simp [Sensor.read]
  · simp only [if_neg hr]
    refine ⟨?_, fun d _ => ?_, fun d hd => ?_⟩
    · constructor
      · intro _
        omega
      · intro _
        trivial
    · simp [Sensor.read]
    · exact absurd hd (by simp)

/-- Witness for C6: release number exactly 0x0100 enables decoding, and a
read then decrypts. -/
theorem open_decode_flag_witness :
    ((⟨false, true, zeroFrame, none⟩ : Sensor).decode = true ↔
      (0x0100 : Nat) ≤ 0x0100) ∧
    Sensor.read ⟨false, true, zeroFrame, none⟩ (.ok 8 zeroFrame) =
      some (classify (decrypt zeroFrame zeroFrame)) :=
  ⟨(open_decode_flag OpenOptions.new 0x0100 ⟨false, true, zeroFrame, none⟩
      rfl).1,
   (open_decode_flag OpenOptions.new 0x0100 ⟨false, true, zeroFrame, none⟩
      rfl).2.1 zeroFrame rfl⟩

/-- C7 (code evaluation): `Sensor::open` stores `timeout: None` no matter
what timeout the builder configured (lib.rs 123 is the literal `None`;
`options.timeout` is never read), and `read` therefore always passes
5000 ms to `dev.read_timeout` — the configured value, including a
configured `None`, never reaches the transport. -/
theorem open_drops_configured_timeout (opts : OpenOptions) (t : Option Nat)
    (release : Nat) (s : Sensor)
    (h : Sensor.openDevice (opts.withTimeout t) (some release) = .ok s) :
    s.timeout = none ∧ s.readTimeoutMs = 5000 := by
  simp only [Sensor.openDevice, Except.ok.injEq] at h
  subst h
  constructor
  · rfl
  · rfl

/-- Witness for C7 at the failing input: a builder-configured timeout of
1000 ms is dropped and the read still uses 5000 ms. -/
theorem open_drops_configured_timeout_witness :
    (⟨false, true, zeroFrame, none⟩ : Sensor).timeout = none ∧
      (⟨false, true, zeroFrame, none⟩ : Sensor).readTimeoutMs = 5000 :=
  open_drops_configured_timeout OpenOptions.new (some 1000) 0x0100
    ⟨false, true, zeroFrame, none⟩ rfl

/-- C8 (code evaluation): configuring any timeout whatsoever — including
values far beyond the transport's i32 millisecond range — always
succeeds: the builder setter stores it unvalidated, and `Sensor::open`
either fails with `Hid` (transport acquisition) or returns a sensor; no
path produces `Error::InvalidTimeout` (the variant is declared in
error.rs but never constructed). -/
theorem timeout_config_never_fails (opts : OpenOptions) (t : Option Nat)
    (hid : Option Nat) :
    (opts.withTimeout t).timeout = t ∧
    (Sensor.openDevice (opts.withTimeout t) hid = .error .Hid ∨
     ∃ s, Sensor.openDevice (opts.withTimeout t) hid = .ok s ∧
       s.timeout = none) := by
  refine ⟨rfl, ?_⟩
  cases hid with
  | none => exact Or.inl rfl
  | some release => exact Or.inr ⟨_, rfl, rfl⟩

/-- `classify` only ever reports a concentration of at most 3000. -/
theorem classify_concentration_le (g : Frame) (w : Nat)
    (h : classify g = .RelativeConcentration w) : w ≤ 3000 := by
  simp only [classify] at h
  split at h
  · exact absurd h (by simp)
  split at h
  · exact absurd h (by simp)
  split at h
  · exact absurd h (by simp)
  split at h
  · exact absurd h (by simp)
  split at h
  · split at h
    · exact absurd h (by simp)
    · rename_i hle
      rw [AirQulityEvent.RelativeConcentration.injEq] at h
      rw [Nat.shiftLeft_eq] at hle h
      omega
  · exact absurd h (by simp)

/-- C10: an invariant of `read`: every `RelativeConcentration` event it
returns carries a value of at most 3000. -/
theorem read_concentration_le_3000 (s : Sensor) (r : ReadOutcome) (w : Nat)
    (h : s.read r = some (.RelativeConcentration w)) : w ≤ 3000 := by
  cases r with
  | ioError => simp [Sensor.read] at h
  | ok n d =>
      by_cases hn : n = 8
      · subst hn
        exact classify_concentration_le _ _ (Option.some.inj h)
      · simp [Sensor.read, hn] at h

/-- Witness for C10: a valid CO2 frame carrying exactly 3000 is returned
and is within the bound. -/
theorem read_concentration_le_3000_witness : (3000 : Nat) ≤ 3000 :=
  read_concentration_le_3000 ⟨false, false, zeroFrame, none⟩
    (.ok 8 ⟨0x50, 11, 184, 19, 0x0d, 0, 0, 0⟩) 3000 (by decide)

/-- The recombination step keeps all bytes in `u8` range. -/
theorem rotStep_bounded (f : Frame) (hb : f.Bounded) :
    (rotStep f).Bounded := by
  obtain ⟨b0, b1, b2, b3, b4, b5, b6, b7⟩ := f
  obtain ⟨h0, h1, h2, h3, h4, h5, h6, h7⟩ := hb
  dsimp only at h0 h1 h2 h3 h4 h5 h6 h7
  simp only [rotStep, Frame.Bounded, shlU8_five, Nat.shiftRight_eq_div_pow]
  refine ⟨?_, ?_, ?_, ?_, ?_, ?_, ?_, ?_⟩ <;>
    · rw [lor_mul32 _ (by omega) _ (by omega)]
      omega

/-- Reading the recombined bytes back as a big-endian 64-bit integer is
exactly the 3-bit right rotation of the original integer. -/
theorem toBE64_rotStep (f : Frame) (hb : f.Bounded) :
    toBE64 (rotStep f) = rotr3_64 (toBE64 f) := by
  obtain ⟨b0, b1, b2, b3, b4, b5, b6, b7⟩ := f
  obtain ⟨h0, h1, h2, h3, h4, h5, h6, h7⟩ := hb
  dsimp only at h0 h1 h2 h3 h4 h5 h6 h7
  simp only [rotStep, toBE64, rotr3_64, shlU8_five,
    Nat.shiftRight_eq_div_pow]
  repeat rw [lor_mul32 _ (by omega) _ (by omega)]
  omega

/-- Big-endian decomposition is a left inverse of big-endian composition
on byte-range frames. -/
theorem ofBE64_toBE64 (f : Frame) (hb : f.Bounded) :
    ofBE64 (toBE64 f) = f := by
  obtain ⟨b0, b1, b2, b3, b4, b5, b6, b7⟩ := f
  obtain ⟨h0, h1, h2, h3, h4, h5, h6, h7⟩ := hb
  dsimp only at h0 h1 h2 h3 h4 h5 h6 h7
  simp only [ofBE64, toBE64, Frame.mk.injEq]
  refine ⟨?_, ?_, ?_, ?_, ?_, ?_, ?_, ?_⟩ <;> omega

/-- C9: on byte-range inputs, the bit-recombination step of `decrypt`
(`rotStep`, the eight in-place assignments of lib.rs 66-74) equals
reading the 8 bytes as a 64-bit big-endian integer, rotating it right by
3 bits, and decomposing back into 8 big-endian bytes. -/
theorem rotStep_eq_rotr3 (f : Frame) (hb : f.Bounded) :
    rotStep f = ofBE64 (rotr3_64 (toBE64 f)) := by
  rw [← toBE64_rotStep f hb, ofBE64_toBE64 _ (rotStep_bounded f hb)]

/-- Witness for C9 at a concrete byte-range frame. -/
theorem rotStep_eq_rotr3_witness :
    Frame.Bounded ⟨1, 2, 3, 4, 5, 6, 7, 248⟩ ∧
      rotStep ⟨1, 2, 3, 4, 5, 6, 7, 248⟩ =
        ofBE64 (rotr3_64 (toBE64 ⟨1, 2, 3, 4, 5, 6, 7, 248⟩)) :=
  ⟨by decide, rotStep_eq_rotr3 ⟨1, 2, 3, 4, 5, 6, 7, 248⟩ (by decide)⟩

end Co2mon
